import Mathlib

/-!
Verification of the Sales Dojo trainer core (`app.py`, with the stage tracker
modelled from the specification where only its black-box tests exist in the
repository).  The mock scoring path of `generate_manager_feedback`, the mock
customer-reply path of `generate_customer_response`, and the session report
`generate_final_report` are embedded as executable Lean functions; Python
strings become `String`, Python ints become `Int`, floats become `ℚ`.
-/

namespace SalesDojo

/-- Boolean prefix test on character lists (used to embed Python substring
containment `pattern in text`). -/
def isPrefixList : List Char → List Char → Bool
  | [], _ => true
  | _ :: _, [] => false
  | a :: as, b :: bs => a == b && isPrefixList as bs

/-- Boolean substring containment on character lists. -/
def containsSub (pat : List Char) : List Char → Bool
  | [] => isPrefixList pat []
  | c :: rest => isPrefixList pat (c :: rest) || containsSub pat rest

/-- Embedding of Python `pat in s` (substring containment). -/
def hasKw (s : String) (pat : String) : Bool :=
  containsSub pat.data s.data

/-- Embedding of Python `any(x in s for x in pats)`. -/
def hasAny (s : String) (pats : List String) : Bool :=
  pats.any (fun p => hasKw s p)

/-- Customer persona record (`st.session_state.customer_persona`). -/
structure Persona where
  industry : String
  position : String
  budget : String
  pain_point : String
  personality : String

/-- The per-category score breakdown returned by the manager agent
(`breakdown` dict in `generate_manager_feedback`). -/
structure Breakdown where
  micro_agent : Int
  state_management : Int
  organic_looping : Int
  human_in_loop : Int

/-- The full result dict returned by `generate_manager_feedback`. -/
structure Feedback where
  score : Int
  tech_score : Int
  strategy_score : Int
  breakdown : Breakdown
  feedback : List String
  improvement : String

/-- The `danger_patterns` list of `generate_manager_feedback`: (pattern, warning). -/
def danger_patterns : List (String × String) :=
  [("全部自動", "『全部自動化』は危険な提案です。例外処理やエラー時の対応が考慮されていません。"),
   ("全自動", "『全自動』という表現は顧客に不信感を与えます。人間の介入ポイントを明示してください。"),
   ("工数ゼロ", "『工数ゼロ』は非現実的です。適切な期待値設定が必要です。"),
   ("何でもできる", "『何でもできる』は思考停止した提案です。具体的な役割分担を示してください。"),
   ("魔法", "『魔法のように』という表現は避けてください。技術的な根拠を示しましょう。"),
   ("簡単に導入", "導入の容易さだけでなく、運用フェーズの設計も説明してください。")]

/-- Micro-Agent Strategy points (if/elif chain of `micro_score`). -/
def micro_pts (s : String) : Int :=
  if hasAny s ["解析Gem", "作成Gem", "通知Gem", "判定Gem", "リマインドGem"] then 20
  else if hasKw s "役割" && hasAny s ["分け", "分割", "細分化", "分離"] then 15
  else if hasAny s ["単一責任", "専門特化", "それぞれの"] then 12
  else if hasAny s ["Gem", "エージェント"] && hasKw s "連携" then 10
  else if hasAny s ["Gem", "エージェント"] then 5
  else 0

/-- Feedback lines produced by the Micro-Agent chain. -/
def micro_msgs (s : String) : List String :=
  if hasAny s ["解析Gem", "作成Gem", "通知Gem", "判定Gem", "リマインドGem"] then
    ["✅ 具体的なGemの役割定義あり - Micro-Agent戦略の理想形"]
  else if hasKw s "役割" && hasAny s ["分け", "分割", "細分化", "分離"] then
    ["✅ 役割分割の概念を説明 - Micro-Agent戦略"]
  else if hasAny s ["単一責任", "専門特化", "それぞれの"] then
    ["✅ 単一責任の原則への言及あり"]
  else if hasAny s ["Gem", "エージェント"] && hasKw s "連携" then
    ["✅ エージェント連携の概念あり"]
  else if hasAny s ["Gem", "エージェント"] then
    ["⚠️ Gem/エージェントの言及はあるが、具体的な役割定義が不足"]
  else []

/-- State-management points (`state_score`, three independent checks). -/
def state_pts (s : String) : Int :=
  (if hasAny s ["リルート", "フォールバック", "代替ルート"] then 15 else 0) +
  (if hasAny s ["例外", "エラー"] && hasAny s ["処理", "対応", "時"] then 10 else 0) +
  (if hasAny s ["3日", "期限", "タイムアウト", "返信がない"] then 8 else 0)

/-- Feedback lines produced by the state-management checks. -/
def state_msgs (s : String) : List String :=
  (if hasAny s ["リルート", "フォールバック", "代替ルート"] then
    ["✅ エラー時のリルート設計あり - 動的ステート管理"] else []) ++
  (if hasAny s ["例外", "エラー"] && hasAny s ["処理", "対応", "時"] then
    ["✅ 例外処理への言及あり"] else []) ++
  (if hasAny s ["3日", "期限", "タイムアウト", "返信がない"] then
    ["✅ 時間ベースのトリガー設計あり"] else [])

/-- Organic-looping points (`loop_score`). -/
def loop_pts (s : String) : Int :=
  (if hasKw s "循環" && hasAny s ["構造", "設計", "組み"] then 20
   else if hasAny s ["ループ", "繰り返し", "定期的"] then 12 else 0) +
  (if hasKw s "連携" && hasAny s ["次に", "その後", "まず"] then 8 else 0) +
  (if hasAny s ["取りこぼし", "漏れ", "フォローアップ"] then 5 else 0)

/-- Feedback lines produced by the organic-looping checks. -/
def loop_msgs (s : String) : List String :=
  (if hasKw s "循環" && hasAny s ["構造", "設計", "組み"] then
    ["✅ 循環構造の設計を明示 - 有機的循環の理想形"]
   else if hasAny s ["ループ", "繰り返し", "定期的"] then
    ["✅ ループ処理の概念あり"] else []) ++
  (if hasKw s "連携" && hasAny s ["次に", "その後", "まず"] then
    ["✅ 処理フローの順序を説明"] else []) ++
  (if hasAny s ["取りこぼし", "漏れ", "フォローアップ"] then
    ["✅ 取りこぼし防止の意識あり"] else [])

/-- Human-in-the-Loop points (`human_score`, if/elif chain). -/
def human_pts (s : String) : Int :=
  if (hasKw s "人間" || hasKw s "担当者") && hasAny s ["承認", "確認", "判断"] then 15
  else if hasKw s "Human-in-the-Loop" || hasKw s "ヒューマンインザループ" then 12
  else if hasAny s ["承認ボタン", "最終確認", "ゲートキーパー"] then 15
  else if hasAny s ["承認", "確認", "レビュー"] then 8
  else 0

/-- Feedback lines produced by the Human-in-the-Loop chain. -/
def human_msgs (s : String) : List String :=
  if (hasKw s "人間" || hasKw s "担当者") && hasAny s ["承認", "確認", "判断"] then
    ["✅ 人間による承認フローを明示 - Human-in-the-Loop"]
  else if hasKw s "Human-in-the-Loop" || hasKw s "ヒューマンインザループ" then
    ["✅ Human-in-the-Loop概念への直接言及"]
  else if hasAny s ["承認ボタン", "最終確認", "ゲートキーパー"] then
    ["✅ 具体的な承認UIの言及あり"]
  else if hasAny s ["承認", "確認", "レビュー"] then
    ["✅ 確認プロセスへの言及あり"]
  else []

/-- Security / ROI bonus points (`bonus_score`). -/
def bonus_pts (s : String) : Int :=
  (if hasAny s ["匿名化", "マスキング", "個人情報"] then 5 else 0) +
  (if hasAny s ["学習に使われない", "学習除外", "データ保護"] then 5 else 0)

/-- Feedback lines produced by the bonus checks. -/
def bonus_msgs (s : String) : List String :=
  (if hasAny s ["匿名化", "マスキング", "個人情報"] then
    ["🛡️ セキュリティ対策（匿名化）への言及 - 信頼性向上"] else []) ++
  (if hasAny s ["学習に使われない", "学習除外", "データ保護"] then
    ["🛡️ データ学習除外への言及 - 顧客の懸念に対応"] else [])

/-- The `scope_keywords` of the Beachhead-strategy block. -/
def scope_keywords : List String :=
  ["特定業務", "絞って", "だけ", "のみ", "一部", "請求書", "日程調整", "採用", "問い合わせ"]

/-- The `price_keywords` of the Beachhead-strategy block. -/
def price_keywords : List String :=
  ["100万", "200万", "300万", "百万", "数百万", "トライアル", "PoC"]

/-- Strategy points (`strategy_score` accumulation, including the negative
discount-without-scope adjustment). -/
def strategy_pts (s : String) : Int :=
  (if hasAny s ["まずは", "特定", "絞"] && hasAny s scope_keywords then 15 else 0) +
  (if hasAny s price_keywords then 10 else 0) +
  (if hasAny s ["時間", "工数", "削減"] && hasAny s ["月", "週", "日", "3ヶ月", "半年"] then 10 else 0) +
  (if hasAny s ["成功したら", "次は", "第一フェーズ", "フェーズ1", "将来的", "拡張"] then 5 else 0) +
  (if hasAny s ["スモールスタート", "PoC", "実証", "パイロット", "トライアル"] then
    (if hasAny s price_keywords then 10 else 5) else 0) +
  (if hasAny s ["値下げ", "割引", "安く"] && !(hasAny s ["絞", "限定", "特定", "だけ"]) then -15 else 0)

/-- Feedback lines produced by the strategy checks (`strategy_feedback`). -/
def strategy_msgs (s : String) : List String :=
  (if hasAny s ["まずは", "特定", "絞"] && hasAny s scope_keywords then
    ["📉 【Scope Down】対象範囲を限定した提案 - 全失注リスクを回避"] else []) ++
  (if hasAny s price_keywords then
    ["📉 【Budget Fit】部長決裁ライン（300万以下）を意識した金額提示"] else []) ++
  (if hasAny s ["時間", "工数", "削減"] && hasAny s ["月", "週", "日", "3ヶ月", "半年"] then
    ["📉 【Quick ROI】短期的な効果を数字で提示 - 稟議を通しやすい"] else []) ++
  (if hasAny s ["成功したら", "次は", "第一フェーズ", "フェーズ1", "将来的", "拡張"] then
    ["📉 【Scalability】将来の全体導入への布石を提示"] else []) ++
  (if hasAny s ["スモールスタート", "PoC", "実証", "パイロット", "トライアル"] then
    (if hasAny s price_keywords then
      ["🎯 【Beachhead Strategy】小さく始めて成功を積む - 理想的な着地点戦略"]
     else
      ["⚠️ スモールスタートは良いが、具体的な金額感（100-300万）を提示すると説得力が増します"]) else []) ++
  (if hasAny s ["値下げ", "割引", "安く"] && !(hasAny s ["絞", "限定", "特定", "だけ"]) then
    ["🚫 【Bad Move】機能を削らず値引きだけで解決しようとしています。『範囲を絞ってコストを下げる』が正解です。"] else [])

/-- Python `xs if xs else [d]`. -/
def listOrDefault (xs : List String) (d : String) : List String :=
  if xs.isEmpty then [d] else xs

/-- Python `s or d` on strings. -/
def strOrDefault (s d : String) : String :=
  if s = "" then d else s

/-- The danger patterns matched by the input (the pairs whose pattern is a
substring of the input, in declaration order). -/
def matched_dangers (s : String) : List (String × String) :=
  danger_patterns.filter (fun pw => hasKw s pw.1)

/-- The `penalty_score`: 15 points per matched danger pattern. -/
def penalty_score (s : String) : Int :=
  15 * ((matched_dangers s).length : Int)

/-- The `breakdown` dict: each category capped at its maximum. -/
def breakdown_of (s : String) : Breakdown :=
  ⟨min (micro_pts s) 30, min (state_pts s) 25,
   min (loop_pts s) 25, min (human_pts s) 20⟩

/-- Source: `base_score = sum(breakdown.values()) + bonus_score`. -/
def base_score (s : String) : Int :=
  (breakdown_of s).micro_agent + (breakdown_of s).state_management +
  (breakdown_of s).organic_looping + (breakdown_of s).human_in_loop + bonus_pts s

/-- Source: `tech_score = max(0, base_score - penalty_score)`. -/
def tech_score_of (s : String) : Int :=
  max 0 (base_score s - penalty_score s)

/-- Source: `total_score = tech_score + strategy_score`. -/
def total_score_of (s : String) : Int :=
  tech_score_of s + strategy_pts s

/-- Source: `final_score = min(total_score, 100)`, before the length check. -/
def pre_score (s : String) : Int :=
  min (total_score_of s) 100

/-- The final score after the short-input cap
(`if len(user_input) < 30: final_score = min(final_score, 20)`). -/
def final_score_of (s : String) : Int :=
  if s.length < 30 then min (pre_score s) 20 else pre_score s

/-- The improvement advice chosen by the threshold chain, before the
short-input override. -/
def improvement1_of (s : String) : String :=
  if penalty_score s > 0 then
    "危険なキーワードを避け、具体的なアーキテクチャ（Gem分割、承認フロー、循環構造）を説明してください。"
  else if pre_score s < 30 then
    "単なる機能説明ではなく、Gemの役割分割、承認フロー、循環構造を具体的に説明してください。"
  else if pre_score s < 50 then
    "用語は使えていますが、具体的なInput/Output（I-P-O）の説明が不足しています。どのデータがトリガーになり、どう処理されるか明示してください。"
  else if pre_score s < 70 then
    "良い提案です。さらに顧客の業界特有の課題に当てはめた具体例を追加すると説得力が増します。"
  else
    "素晴らしい提案です。この調子で顧客の懸念（セキュリティ、予算）にも先回りして対応しましょう。"

/-- The improvement advice after the short-input override. -/
def improvement_of (s : String) : String :=
  if s.length < 30 then
    "顧客の不安を払拭するため、具体的な仕組みを説明してください。"
  else improvement1_of s

/-- The assembled `all_feedback` list: penalty warnings, per-category
feedback points, strategy feedback, then the threshold-dependent notes and
the short-input warning. -/
def all_feedback_of (s : String) : List String :=
  let penalties := (matched_dangers s).map (fun pw => "🚨 " ++ pw.2)
  let feedback_points :=
    micro_msgs s ++ state_msgs s ++ loop_msgs s ++ human_msgs s ++ bonus_msgs s
  let all_feedback0 := penalties ++ feedback_points ++ strategy_msgs s
  let all_feedback1 :=
    if penalty_score s > 0 then all_feedback0
    else if pre_score s < 30 then
      all_feedback0 ++ ["⚠️ 設計哲学（Micro-Agent、有機的循環など）への言及が不足しています。"]
    else if pre_score s < 50 then all_feedback0
    else if pre_score s < 70 then all_feedback0
    else all_feedback0 ++ ["🎯 設計哲学を適切に伝えられています。"]
  let all_feedback2 :=
    if pre_score s ≥ 90 then
      all_feedback1 ++ ["🏆 完璧です！Micro-Agent、Dynamic State、Organic Loopingの3要素が網羅されています。"]
    else all_feedback1
  if s.length < 30 then
    "⚠️ 説明が短すぎます。詳細なアーキテクチャ説明が必要です。" :: all_feedback2
  else all_feedback2

/-- Embedding of the mock-evaluation path of `generate_manager_feedback`
(`app.py` lines 318-505).  The persona context is received but, as in the
code, not consulted by the mock scoring logic. -/
def generate_manager_feedback (user_input : String) (_customer_context : Persona) : Feedback :=
  { score := final_score_of user_input
    tech_score := tech_score_of user_input
    strategy_score := max 0 (strategy_pts user_input)
    breakdown := breakdown_of user_input
    feedback := listOrDefault (all_feedback_of user_input)
      "⚠️ 評価ポイントとなるキーワードが見つかりませんでした。"
    improvement := strOrDefault (improvement_of user_input)
      "設計哲学に基づいた説明を心がけてください。" }

/-- Trust level set by `init_persona` (`st.session_state.trust_level = 0`). -/
def init_trust_level : Int := 0

/-- The `good_keywords` scanned by the mock customer-response path. -/
def good_keywords : List String :=
  ["エージェント", "Gem", "循環", "ループ", "人間", "承認", "連携"]

/-- The `compromise_keywords` of the Beachhead softening logic. -/
def compromise_keywords : List String :=
  ["スモールスタート", "PoC", "トライアル", "まずは", "絞って", "特定業務", "だけ"]

/-- The `price_keywords` used inside `generate_customer_response`. -/
def gcr_price_keywords : List String :=
  ["100万", "200万", "300万", "百万"]

/-- Python `context['budget'].split('（')[0]`: budget text before the
first fullwidth parenthesis. -/
def budget_head (b : String) : String :=
  String.mk (b.data.takeWhile (fun c => c ≠ '（'))

/-- The special reply for a small-start proposal with a price
(`generate_customer_response`, compromise + price branch). -/
def special_reply_price (context : Persona) : String :=
  "..." ++ budget_head context.budget ++
  "の範囲内ですね。それなら私の決裁で進められます。\n\n特定の業務に絞って、まず成果を見てみる形なら現実的ですね。" ++
  context.industry ++ "では特に" ++
  (if ["製造業", "物流", "小売"].contains context.industry then "請求書処理" else "問い合わせ対応") ++
  "がボトルネックなので、そこからお願いできますか？\n\n3ヶ月後に効果を測定して、良ければ次のフェーズに進みましょう。"

/-- The special reply for a small-start proposal without a price. -/
def special_reply_noprice (context : Persona) : String :=
  "なるほど、小さく始めるというのは賢明ですね。\n\n具体的にどのくらいの予算感で、どの業務から始めることを想定されていますか？" ++
  context.budget ++ "の範囲内なら、私の判断で進められます。"

/-- Canned replies for trust below 20. -/
def low_responses (context : Persona) : List String :=
  ["なるほど。しかし、従来のRPAと何が違うのですか？単線的な自動化では例外処理で止まってしまうのが悩みです。",
   "興味深いですが、具体的にどのような仕組みで動くのでしょうか？「AIで自動化」という説明だけでは判断できません。",
   "当社は" ++ context.industry ++ "ですが、業界特有の要件に対応できるのでしょうか？"]

/-- Canned replies for trust in [20, 50). -/
def mid_responses (_context : Persona) : List String :=
  ["なるほど、個別の専門エージェントが連携するという考え方は面白いですね。ただ、管理が煩雑になりませんか？",
   "セキュリティ面が心配です。社内データが学習に使われたり、外部に漏れたりすることはありませんか？",
   "具体的なアウトプットイメージが湧きにくいです。Google Workspace上でどう動くのか、デモを見せていただけますか？"]

/-- Canned replies for trust in [50, 80).  The third entry is a plain
(non-f) string in the source, so the brace expression is literal text. -/
def high_responses (context : Persona) : List String :=
  ["かなり理解が深まりました。" ++ context.budget ++ "の範囲で、まずはPoC（概念実証）から始めることは可能でしょうか？",
   "導入に際して、現場への説明や研修はどのようにサポートいただけますか？",
   "他社での導入事例があれば教えていただけますか？特に\x7bcontext[\x27industry\x27]\x7dでの実績は？"]

/-- Canned replies for trust at 80 or above. -/
def top_responses : List String :=
  ["詳しいご説明ありがとうございます。前向きに検討したいと思います。次のステップとして何を準備すればよいでしょうか？",
   "社内で稟議を上げるために、提案書をいただくことは可能でしょうか？",
   "ぜひ上層部にも説明いただきたいのですが、プレゼンの機会を設けられますか？"]

/-- Embedding of the mock path of `generate_customer_response`
(`app.py` lines 535-591).  Returns the updated trust level and the reply;
`rng` stands for the `random.choice` draw (reply index). -/
def generate_customer_response (rng : Nat) (trust0 : Int) (context : Persona)
    (user_input : String) : Int × String :=
  let trust := trust0
  let keyword_hits : Nat := (good_keywords.filter (fun kw => hasKw user_input kw)).length
  let t1 : Int := min (trust + (keyword_hits : Int) * 10) 100
  let has_compromise := hasAny user_input compromise_keywords
  let has_price := hasAny user_input gcr_price_keywords
  if has_compromise && has_price then
    (min (t1 + 30) 100, special_reply_price context)
  else if has_compromise then
    (min (t1 + 15) 100, special_reply_noprice context)
  else
    let responses :=
      if trust < 20 then low_responses context
      else if trust < 50 then mid_responses context
      else if trust < 80 then high_responses context
      else top_responses
    (t1, responses.getD (rng % responses.length) "")

/-- Trust update performed on the LLM path of `generate_customer_response`
(`app.py` lines 529-532), as a function of the reply text. -/
def update_trust_from_reply (trust : Int) (llm_response : String) : Int :=
  if hasKw llm_response "面白い" || hasKw llm_response "興味深い" then
    min (trust + 15) 100
  else if hasKw llm_response "不安" || hasKw llm_response "心配" then
    max (trust - 5) 0
  else trust

/-- One scored turn of the main loop (`app.py` lines 798-814): manager
feedback plus the customer reply and the trust level it leaves behind. -/
structure TurnOutcome where
  feedback : Feedback
  new_trust : Int
  reply : String

/-- Process one user turn: the manager agent scores the input, then the
customer agent answers (consuming the random draw `rng`). -/
def processTurn (rng : Nat) (trust : Int) (context : Persona)
    (user_input : String) : TurnOutcome :=
  { feedback := generate_manager_feedback user_input context
    new_trust := (generate_customer_response rng trust context user_input).1
    reply := (generate_customer_response rng trust context user_input).2 }

/-- One entry of `st.session_state.review_log`. -/
structure ReviewEntry where
  turn : Nat
  user_input : String
  feedback : Feedback

/-- Round half to even, as Python `round` does at exact ties. -/
def round_half_even (q : ℚ) : ℤ :=
  let n := Int.floor q
  let r := q - (n : ℚ)
  if r < 1 / 2 then n
  else if 1 / 2 < r then n + 1
  else if n % 2 = 0 then n else n + 1

/-- Python `round(q, 1)` on an exact rational value. -/
def round1 (q : ℚ) : ℚ :=
  ((round_half_even (10 * q) : ℤ) : ℚ) / 10

/-- The session report returned by `generate_final_report`. -/
structure SessionReport where
  total_turns : Nat
  avg_score : ℚ
  final_trust : Int
  avg_micro : ℚ
  avg_state : ℚ
  avg_loop : ℚ
  avg_human : ℚ
  strength : String
  weakness : String
  recommendation : String

/-- The `category_names` lookup of `generate_final_report`. -/
def category_name (k : String) : String :=
  if k = "micro_agent" then "Micro-Agent Strategy"
  else if k = "state_management" then "動的ステート管理"
  else if k = "organic_looping" then "有機的循環"
  else if k = "human_in_loop" then "Human-in-the-Loop"
  else ""

/-- Python `max(d, key=d.get)` over an association list in insertion order:
the first key whose value is maximal. -/
def pickMaxKey : List (String × ℚ) → String
  | [] => ""
  | x :: xs => (xs.foldl (fun b y => if b.2 < y.2 then y else b) x).1

/-- Python `min(d, key=d.get)`: the first key whose value is minimal. -/
def pickMinKey : List (String × ℚ) → String
  | [] => ""
  | x :: xs => (xs.foldl (fun b y => if y.2 < b.2 then y else b) x).1

/-- Embedding of `get_recommendation` (`app.py` lines 638-649). -/
def get_recommendation (avg_score : ℚ) (trust_level : Int) : String :=
  if avg_score ≥ 70 ∧ trust_level ≥ 70 then
    "素晴らしいパフォーマンスです！設計哲学を効果的に伝え、顧客の信頼を獲得できています。"
  else if avg_score ≥ 50 ∧ trust_level ≥ 50 then
    "良い傾向です。より具体的な事例や数字を交えることで、説得力を高められます。"
  else if avg_score ≥ 50 then
    "技術説明は適切ですが、顧客のペルソナに合わせたカスタマイズが必要です。"
  else if trust_level ≥ 50 then
    "顧客との関係構築は良好ですが、設計哲学の説明をより強化してください。"
  else
    "Micro-Agent戦略、有機的循環、Human-in-the-Loopの概念を意識した説明を心がけてください。"

/-- Embedding of `generate_final_report` (`app.py` lines 593-636): `None`
for an empty log, otherwise the aggregate report.  Score sums and averages
are exact rationals. -/
def generate_final_report (log : List ReviewEntry) (trust_level : Int) :
    Option SessionReport :=
  if log.isEmpty then none
  else
    let total_turns := log.length
    let avg_score : ℚ := ((log.map (fun e => ((e.feedback.score : ℤ) : ℚ))).sum) / (total_turns : ℚ)
    let avg_micro := round1
      (((log.map (fun e => ((e.feedback.breakdown.micro_agent : ℤ) : ℚ))).sum) / (total_turns : ℚ))
    let avg_state := round1
      (((log.map (fun e => ((e.feedback.breakdown.state_management : ℤ) : ℚ))).sum) / (total_turns : ℚ))
    let avg_loop := round1
      (((log.map (fun e => ((e.feedback.breakdown.organic_looping : ℤ) : ℚ))).sum) / (total_turns : ℚ))
    let avg_human := round1
      (((log.map (fun e => ((e.feedback.breakdown.human_in_loop : ℤ) : ℚ))).sum) / (total_turns : ℚ))
    let entries := [("micro_agent", avg_micro), ("state_management", avg_state),
                    ("organic_looping", avg_loop), ("human_in_loop", avg_human)]
    some
      { total_turns := total_turns
        avg_score := round1 avg_score
        final_trust := trust_level
        avg_micro := avg_micro
        avg_state := avg_state
        avg_loop := avg_loop
        avg_human := avg_human
        strength := category_name (pickMaxKey entries)
        weakness := category_name (pickMinKey entries)
        recommendation := get_recommendation avg_score trust_level }

/-- Modelled from the spec: the six ordered SPIN stages of the Stage
Tracker (spec sections 3 and 4.2).  The stage-tracker implementation is not
under src/ — only its black-box test scenarios (`scenario_runner.py`) are —
so the state machine is reconstructed from the specification text. -/
inductive Stage
  | opening
  | situation
  | problem
  | implication
  | needPayoff
  | closing
deriving DecidableEq, Repr

/-- Pipeline position of a stage. -/
def Stage.idx : Stage → Nat
  | .opening => 0
  | .situation => 1
  | .problem => 2
  | .implication => 3
  | .needPayoff => 4
  | .closing => 5

/-- Successor stage (Closing is terminal). -/
def Stage.nextStage : Stage → Stage
  | .opening => .situation
  | .situation => .problem
  | .problem => .implication
  | .implication => .needPayoff
  | .needPayoff => .closing
  | .closing => .closing

/-- Modelled from the spec: the qualitative status labels attached by the
Stage Tracker (spec section 4.2). -/
inductive TrackStatus
  | good
  | alert
  | loopBack
  | deepening
deriving DecidableEq, Repr

/-- Modelled from the spec: `advance(currentStage, detectedStage,
inputLength)` of the Stage Tracker (spec section 4.2), absent from src/.
Skips ahead are refused with Alert (the NeedPayoff-to-Closing fast path is
allowed); loop-backs hold unless the input is longer than 50 characters;
same-stage dwelling holds unless the input is longer than a lower
threshold (30); a one-step-ahead detection advances normally. -/
def advance (cur det : Stage) (input_len : Nat) : Stage × TrackStatus :=
  if cur.idx + 1 < det.idx then
    if cur = Stage.needPayoff ∧ det = Stage.closing then (Stage.closing, TrackStatus.good)
    else (cur, TrackStatus.alert)
  else if det.idx < cur.idx then
    if 50 < input_len then (cur.nextStage, TrackStatus.good)
    else (cur, TrackStatus.loopBack)
  else if det.idx = cur.idx then
    if 30 < input_len then (cur.nextStage, TrackStatus.good)
    else (cur, TrackStatus.deepening)
  else (cur.nextStage, TrackStatus.good)

/-! ### Helper lemmas about the manager-agent scoring -/

lemma micro_pts_lb (s : String) : 0 ≤ micro_pts s := by
  unfold micro_pts
  repeat' split
  all_goals omega

lemma state_pts_lb (s : String) : 0 ≤ state_pts s := by
  unfold state_pts
  repeat' split
  all_goals omega

lemma loop_pts_lb (s : String) : 0 ≤ loop_pts s := by
  unfold loop_pts
  repeat' split
  all_goals omega

lemma human_pts_lb (s : String) : 0 ≤ human_pts s := by
  unfold human_pts
  repeat' split
  all_goals omega

lemma bonus_pts_lb (s : String) : 0 ≤ bonus_pts s := by
  unfold bonus_pts
  repeat' split
  all_goals omega

lemma strategy_pts_lb (s : String) : -15 ≤ strategy_pts s := by
  unfold strategy_pts
  repeat' split
  all_goals omega

lemma breakdown_of_bounds (s : String) :
    0 ≤ (breakdown_of s).micro_agent ∧ (breakdown_of s).micro_agent ≤ 30 ∧
    0 ≤ (breakdown_of s).state_management ∧ (breakdown_of s).state_management ≤ 25 ∧
    0 ≤ (breakdown_of s).organic_looping ∧ (breakdown_of s).organic_looping ≤ 25 ∧
    0 ≤ (breakdown_of s).human_in_loop ∧ (breakdown_of s).human_in_loop ≤ 20 := by
  have h1 := micro_pts_lb s
  have h2 := state_pts_lb s
  have h3 := loop_pts_lb s
  have h4 := human_pts_lb s
  unfold breakdown_of
  dsimp only
  omega

lemma tech_score_of_lb (s : String) : 0 ≤ tech_score_of s := le_max_left 0 _

lemma pre_score_le_100 (s : String) : pre_score s ≤ 100 := min_le_right _ _

lemma pre_score_lb (s : String) : -15 ≤ pre_score s := by
  have h1 := tech_score_of_lb s
  have h2 := strategy_pts_lb s
  unfold pre_score total_score_of
  omega

lemma final_score_of_le_100 (s : String) : final_score_of s ≤ 100 := by
  have h := pre_score_le_100 s
  unfold final_score_of
  split
  · omega
  · exact h

lemma final_score_of_lb (s : String) : -15 ≤ final_score_of s := by
  have h := pre_score_lb s
  unfold final_score_of
  split
  · omega
  · exact h

lemma final_score_of_short (s : String) (h : s.length < 30) :
    final_score_of s ≤ 20 := by
  unfold final_score_of
  rw [if_pos h]
  exact min_le_right _ _

lemma listOrDefault_ne_nil (xs : List String) (d : String) :
    listOrDefault xs d ≠ [] := by
  unfold listOrDefault
  cases xs <;> simp

lemma strOrDefault_ne_empty (s d : String) (hd : d ≠ "") (hs : s ≠ "") :
    strOrDefault s d ≠ "" := by
  unfold strOrDefault
  split
  · exact hd
  · exact hs

lemma improvement_of_ne_empty (s : String) : improvement_of s ≠ "" := by
  unfold improvement_of improvement1_of
  repeat' split
  all_goals decide

/-! ### Claim theorems -/

/-- Claim C1, counterexample: on the input 値下げ (a discount offer with no
scope reduction), the classifier returns a total score of −15, strictly
below 0, so the claimed clamp of the total into [0, 100] fails. -/
theorem c1_counterexample :
    (generate_manager_feedback "値下げ" ⟨"", "", "", "", ""⟩).score = -15 ∧
    (generate_manager_feedback "値下げ" ⟨"", "", "", "", ""⟩).score < 0 := by
  constructor
  · rfl
  · decide

/-- Claim C1 as amended: the total score returned by the classifier is
`min(max(0, capped categories + bonuses − penalties) + strategy, 100)`,
further capped at 20 for inputs shorter than 30 characters; the lower
clamp applies only to the technical part before the strategy adjustment,
so the total is bounded below by −15 (the one negative strategy
adjustment), not by 0, and above by 100. -/
theorem c1_amended_score_bounds (s : String) (c : Persona) :
    -15 ≤ (generate_manager_feedback s c).score ∧
    (generate_manager_feedback s c).score ≤ 100 :=
  ⟨final_score_of_lb s, final_score_of_le_100 s⟩

/-- Claim C2, counterexample: the 3-character input Gem is far below any
minimum length threshold, yet the classifier returns score 5 (its capped
keyword score), not 0 — and the returned record has no Empty/Invalid
status field at all. -/
theorem c2_counterexample :
    ("Gem" : String).length < 30 ∧
    (generate_manager_feedback "Gem" ⟨"", "", "", "", ""⟩).score = 5 ∧
    (generate_manager_feedback "Gem" ⟨"", "", "", "", ""⟩).score ≠ 0 := by
  refine ⟨by decide, rfl, by decide⟩

/-- Claim C2 as amended: for input text shorter than 30 characters the
classifier does not zero the result; it caps the already-computed score at
20 (and swaps in a fixed improvement message).  No trimming is performed
and no Empty/Invalid status exists in the result. -/
theorem c2_amended_short_cap (s : String) (c : Persona) (h : s.length < 30) :
    (generate_manager_feedback s c).score ≤ 20 :=
  final_score_of_short s h

/-- Witness for the amended C2 at the empty input. -/
theorem c2_amended_short_cap_witness :
    ("" : String).length < 30 ∧
    (generate_manager_feedback "" ⟨"", "", "", "", ""⟩).score ≤ 20 :=
  ⟨by decide, c2_amended_short_cap "" ⟨"", "", "", "", ""⟩ (by decide)⟩

/-- Claim C4: the classifier is total — it is a function defined on every
string (empty, whitespace-only, or arbitrarily long), and it always returns
a well-formed degraded result: a score of at most 100, a non-empty
feedback list, and non-empty improvement advice. -/
theorem c4_classifier_total (s : String) (c : Persona) :
    (generate_manager_feedback s c).score ≤ 100 ∧
    (generate_manager_feedback s c).feedback ≠ [] ∧
    (generate_manager_feedback s c).improvement ≠ "" :=
  ⟨final_score_of_le_100 s, listOrDefault_ne_nil _ _,
   strOrDefault_ne_empty _ _ (by decide) (improvement_of_ne_empty s)⟩

/-- Sum of the four category scores of a breakdown. -/
def breakdown_sum (b : Breakdown) : Int :=
  b.micro_agent + b.state_management + b.organic_looping + b.human_in_loop

/-- Claim C7: each danger phrase present in the input adds 15 to the
penalty, which is subtracted from the technical total (category sum plus
bonuses) and the result floored at 0; penalties can drive the technical
score strictly below the category sum, as the concrete input
エージェント魔法 shows. -/
theorem c7_danger_penalty :
    (∀ (s : String) (c : Persona),
      (generate_manager_feedback s c).tech_score =
        max 0 (breakdown_sum (generate_manager_feedback s c).breakdown +
          bonus_pts s - 15 * (((matched_dangers s).length : Int)))) ∧
    (generate_manager_feedback "エージェント魔法" ⟨"", "", "", "", ""⟩).tech_score <
      breakdown_sum (generate_manager_feedback "エージェント魔法" ⟨"", "", "", "", ""⟩).breakdown := by
  constructor
  · intro s c
    rfl
  · decide

/-- Claim C8: every category sub-score in the returned breakdown is an
integer within [0, category maximum], the maxima being 30 (micro_agent),
25 (state_management), 25 (organic_looping) and 20 (human_in_loop). -/
theorem c8_breakdown_bounds (s : String) (c : Persona) :
    0 ≤ (generate_manager_feedback s c).breakdown.micro_agent ∧
    (generate_manager_feedback s c).breakdown.micro_agent ≤ 30 ∧
    0 ≤ (generate_manager_feedback s c).breakdown.state_management ∧
    (generate_manager_feedback s c).breakdown.state_management ≤ 25 ∧
    0 ≤ (generate_manager_feedback s c).breakdown.organic_looping ∧
    (generate_manager_feedback s c).breakdown.organic_looping ≤ 25 ∧
    0 ≤ (generate_manager_feedback s c).breakdown.human_in_loop ∧
    (generate_manager_feedback s c).breakdown.human_in_loop ≤ 20 :=
  breakdown_of_bounds s

lemma nextStage_idx (s : Stage) : s.nextStage.idx ≤ s.idx + 1 := by
  cases s <;> decide

/-- Claim C3 (stage tracker modelled from the spec): for every pair of
current and detected stages and every input length, the advance function
moves the stage at most one pipeline step forward; the NeedPayoff-to-Closing
fast path is itself a single step, so the bound holds there too. -/
theorem c3_no_stage_skip (cur det : Stage) (input_len : Nat) :
    ((advance cur det input_len).1).idx ≤ cur.idx + 1 := by
  unfold advance
  repeat' split
  · rename_i h
    obtain ⟨h1, h2⟩ := h
    subst h1
    decide
  all_goals first
    | exact Nat.le_succ _
    | exact nextStage_idx cur

/-- Claim C5: the session aggregator returns the `None` sentinel on an
empty review log; no average (hence no division) is computed. -/
theorem c5_empty_report (t : Int) : generate_final_report [] t = none := rfl

/-- Claim C6: for every non-empty log, the aggregator produces a report
whose average score is exactly the arithmetic mean (as a rational) of the
recorded total scores, reported rounded to one decimal place. -/
theorem c6_avg_is_mean (log : List ReviewEntry) (t : Int) (h : log ≠ []) :
    ∃ r, generate_final_report log t = some r ∧
      r.avg_score = round1
        (((log.map (fun e => ((e.feedback.score : ℤ) : ℚ))).sum) / (log.length : ℚ)) := by
  cases log with
  | nil => exact absurd rfl h
  | cons a l => exact ⟨_, rfl, rfl⟩

/-- A concrete one-turn review log used by the C6 witness. -/
def sample_entry : ReviewEntry :=
  ⟨1, "テスト入力", ⟨5, 5, 0, ⟨5, 0, 0, 0⟩, [], ""⟩⟩

/-- Witness for C6 on a concrete one-turn log. -/
theorem c6_avg_is_mean_witness :
    ([sample_entry] ≠ []) ∧
    ∃ r, generate_final_report [sample_entry] 0 = some r ∧
      r.avg_score = round1
        ((([sample_entry].map (fun e => ((e.feedback.score : ℤ) : ℚ))).sum) /
          (([sample_entry] : List ReviewEntry).length : ℚ)) :=
  ⟨by simp, c6_avg_is_mean [sample_entry] 0 (by simp)⟩

/-- Claim C9: scoring is deterministic — the manager feedback and the
resulting trust level of a processed turn do not depend on the random
draw; randomness only influences the canned customer reply. -/
theorem c9_scoring_deterministic (rng1 rng2 : Nat) (t : Int) (c : Persona) (s : String) :
    (processTurn rng1 t c s).feedback = (processTurn rng2 t c s).feedback ∧
    (processTurn rng1 t c s).new_trust = (processTurn rng2 t c s).new_trust := by
  constructor
  · rfl
  · show (generate_customer_response rng1 t c s).1 = (generate_customer_response rng2 t c s).1
    unfold generate_customer_response
    by_cases h1 : (hasAny s compromise_keywords && hasAny s gcr_price_keywords) = true
    · simp [h1]
    · by_cases h2 : hasAny s compromise_keywords = true
      · simp [h1, h2]
      · simp [h1, h2]

lemma gcr_trust_bounds (rng : Nat) (t : Int) (c : Persona) (s : String)
    (h0 : 0 ≤ t) (h1 : t ≤ 100) :
    0 ≤ (generate_customer_response rng t c s).1 ∧
    (generate_customer_response rng t c s).1 ≤ 100 := by
  have hk : (0 : Int) ≤ (((good_keywords.filter (fun kw => hasKw s kw)).length : Nat) : Int) :=
    Int.natCast_nonneg _
  unfold generate_customer_response
  dsimp only
  split
  · dsimp only
    omega
  · split
    · dsimp only
      omega
    · dsimp only
      omega

lemma reply_trust_bounds (t : Int) (reply : String) (h0 : 0 ≤ t) (h1 : t ≤ 100) :
    0 ≤ update_trust_from_reply t reply ∧ update_trust_from_reply t reply ≤ 100 := by
  unfold update_trust_from_reply
  repeat' split
  all_goals omega

/-- Claim C10: the session trust level starts at 0 and stays in [0, 100]
across every update performed by `generate_customer_response` — both the
keyword-based mock update (all increases clamped at 100) and the
reply-tone update of the LLM path (increase clamped at 100, decrease
clamped at 0). -/
theorem c10_trust_in_range (rng : Nat) (t : Int) (c : Persona) (s reply : String)
    (h0 : 0 ≤ t) (h1 : t ≤ 100) :
    init_trust_level = 0 ∧
    (0 ≤ (generate_customer_response rng t c s).1 ∧
      (generate_customer_response rng t c s).1 ≤ 100) ∧
    (0 ≤ update_trust_from_reply t reply ∧
      update_trust_from_reply t reply ≤ 100) :=
  ⟨rfl, gcr_trust_bounds rng t c s h0 h1, reply_trust_bounds t reply h0 h1⟩

/-- Witness for C10 at trust 0 with concrete strings. -/
theorem c10_trust_in_range_witness :
    init_trust_level = 0 ∧
    (0 ≤ (generate_customer_response 0 0 ⟨"", "", "", "", ""⟩ "エージェント").1 ∧
      (generate_customer_response 0 0 ⟨"", "", "", "", ""⟩ "エージェント").1 ≤ 100) ∧
    (0 ≤ update_trust_from_reply 0 "不安です" ∧
      update_trust_from_reply 0 "不安です" ≤ 100) :=
  c10_trust_in_range 0 0 ⟨"", "", "", "", ""⟩ "エージェント" "不安です" (by decide) (by decide)

end SalesDojo
